import Mathlib

/-!
# Car-rental booking subsystem: a shallow embedding

This file embeds the booking-availability, pricing and lifecycle logic of a
car-rental web application (JavaScript/Express/Mongoose) into Lean 4 and
proves properties of it.

Conventions of the embedding:
* JS `Date` instants are rationals counting milliseconds; a calendar date is
  an integer day number and a wall-clock time-of-day is a rational number of
  milliseconds since midnight, combined by `dateTimeMs` (mirroring
  `new Date(startDate + "T" + startTime)`).
* JS numbers are rationals (the claims under study are about exact business
  arithmetic, not floating-point artifacts).
* `Math.ceil` on a rational is `Int.ceil`; `Math.round(x*100)/100` is
  `jsRound2` (round half toward positive infinity, as JS `Math.round`).
* Database lookups (`findById`, `Booking.find`) become lookups in explicit
  lists passed as parameters; `new Date()` becomes an explicit `now`
  parameter.
* A JS optional/possibly-`undefined` value is an `Option`; numeric JS
  truthiness (`!x` true for `undefined`/`0`) is `jsTruthyNum`.
-/

/- Rational-number arithmetic in Batteries is `@[irreducible]` by default,
which blocks `decide` on concrete evaluations of the embedded functions; make
it semireducible so embedded computations evaluate. -/
attribute [local semireducible] Rat.mul Rat.inv Rat.add Rat.sub

namespace CarRental

/-- Milliseconds per hour: the JS constant `1000 * 60 * 60`. -/
def msPerHour : ℚ := 1000 * 60 * 60

/-- Milliseconds per day. -/
def msPerDay : ℚ := msPerHour * 24

/-- Combine a calendar date (integer day number) and a time-of-day
(milliseconds since midnight) into an instant, mirroring the JS
`new Date(dateString + "T" + timeString)` combination. -/
def dateTimeMs (d : ℤ) (t : ℚ) : ℚ := d * msPerDay + t

/-- The `duration` object returned by `validateBookingDates`
(`{hours: Math.ceil(durationHours), days: Math.ceil(durationDays)}`). -/
structure Duration where
  hours : ℤ
  days : ℤ
deriving Repr, DecidableEq

/-- The result object of `validateBookingDates`. -/
structure DateValidation where
  isValid : Bool
  errors : List String
  duration : Duration
deriving Repr, DecidableEq

/-- `validateBookingDates(startDate, endDate, startTime, endTime)` from
`src/backend/utils/validateBooking.js` (lines 4-41); the JS `new Date()` is
the explicit parameter `now`.  All four checks run unconditionally and
accumulate their error messages in order. -/
def validateBookingDates (startDate endDate : ℤ) (startTime endTime : ℚ)
    (now : ℚ) : DateValidation :=
  let startMs := dateTimeMs startDate startTime
  let endMs := dateTimeMs endDate endTime
  let durationHours : ℚ := (endMs - startMs) / msPerHour
  let durationDays : ℚ := durationHours / 24
  let errors : List String :=
    (if startMs ≤ now then ["Start date and time must be in the future"] else []) ++
    (if endMs ≤ startMs then ["End date and time must be after start date and time"] else []) ++
    (if durationHours < 1 then ["Booking must be at least 1 hour long"] else []) ++
    (if durationDays > 30 then ["Booking cannot be more than 30 days long"] else [])
  { isValid := errors.length == 0
    errors := errors
    duration := { hours := ⌈durationHours⌉, days := ⌈durationDays⌉ } }

/-- JS `Math.round(x * 100) / 100`: round to two decimals, halves toward
positive infinity (the behavior of `Math.round` on exact values). -/
def jsRound2 (x : ℚ) : ℚ := (⌊x * 100 + 1/2⌋ : ℤ) / 100

/-- The `insuranceRates[insuranceType] || insuranceRates.basic` lookup of
`calculateBookingPrice`: basic 5%, comprehensive 10%, premium 15%, any
unknown tier falling back to basic. -/
def insuranceRate (insuranceType : String) : ℚ :=
  if insuranceType = "basic" then 5/100
  else if insuranceType = "comprehensive" then 10/100
  else if insuranceType = "premium" then 15/100
  else 5/100

/-- A car's rate card (`car.pricing`).  `weekly = 0` models a JS-falsy
weekly rate (absent or zero), matching the `car.pricing.weekly ? _ : _`
truthiness test. -/
structure CarPricing where
  hourly : ℚ
  daily : ℚ
  weekly : ℚ
  currency : String
deriving Repr, DecidableEq

/-- A car's aggregate rating (`car.rating`), default `{average: 0, count: 0}`. -/
structure CarRating where
  average : ℚ
  count : ℕ
deriving Repr, DecidableEq

/-- A blackout or maintenance period (`{startDate, endDate}`), at calendar
date granularity as stored by the schema. -/
structure DatePeriod where
  startDate : ℤ
  endDate : ℤ
deriving Repr, DecidableEq

/-- `car.availability`: the global flag, the owner-declared blackout
periods (`unavailableDates`) and the maintenance schedule. -/
structure CarAvailabilityRecord where
  isAvailable : Bool
  unavailableDates : List DatePeriod
  maintenanceSchedule : List DatePeriod
deriving Repr, DecidableEq

/-- The slice of the `Car` document (`src/backend/models/Car.js`) used by the
booking subsystem: identity, owner, lifecycle status, rate card,
availability record, aggregate rating, total bookings. -/
structure Car where
  id : ℕ
  owner : ℕ
  status : String
  pricing : CarPricing
  availability : CarAvailabilityRecord
  rating : CarRating
  totalBookings : ℕ
deriving Repr, DecidableEq

/-- The price breakdown returned by `calculateBookingPrice` (the
human-readable `breakdown` display strings are omitted as presentation
only). -/
structure PriceBreakdown where
  basePrice : ℚ
  insuranceCost : ℚ
  taxes : ℚ
  fees : ℚ
  totalPrice : ℚ
  currency : String
deriving Repr, DecidableEq

/-- `calculateBookingPrice(car, duration, insuranceType)` from
`src/backend/utils/validateBooking.js` (lines 147-203): weekly billing when
`days >= 7`, daily plus remainder hours when `days >= 1`, else pure hourly;
insurance as a percentage of base; 10% tax on base+insurance; flat fee $25
when `days >= 1`, else $10; each monetary output rounded independently. -/
def calculateBookingPrice (car : Car) (duration : Duration)
    (insuranceType : String) : PriceBreakdown :=
  let hours := duration.hours
  let days := duration.days
  let basePrice : ℚ :=
    if days ≥ 7 then
      let weeks : ℤ := ⌈(days : ℚ) / 7⌉
      if car.pricing.weekly ≠ 0 then (weeks : ℚ) * car.pricing.weekly
      else (weeks : ℚ) * 7 * car.pricing.daily
    else if days ≥ 1 then
      let dayPart : ℚ := (days : ℚ) * car.pricing.daily
      let extraHours := hours % 24
      if extraHours > 0 then dayPart + (extraHours : ℚ) * car.pricing.hourly
      else dayPart
    else (hours : ℚ) * car.pricing.hourly
  let insuranceCost : ℚ := basePrice * insuranceRate insuranceType
  let taxRate : ℚ := 10/100
  let taxes : ℚ := (basePrice + insuranceCost) * taxRate
  let fees : ℚ := if days ≥ 1 then 25 else 10
  let totalPrice : ℚ := basePrice + insuranceCost + taxes + fees
  { basePrice := jsRound2 basePrice
    insuranceCost := jsRound2 insuranceCost
    taxes := jsRound2 taxes
    fees := fees
    totalPrice := jsRound2 totalPrice
    currency := car.pricing.currency }

/-- The booking `status` enum of the Mongoose booking schema:
`['pending', 'confirmed', 'active', 'completed', 'cancelled', 'no-show']`. -/
inductive BookingStatus where
  | pending
  | confirmed
  | active
  | completed
  | cancelled
  | noShow
deriving Repr, DecidableEq

/-- The slice of a stored booking document used by the availability query:
identity, car reference, status, the date fields compared by the query, and
the time-of-day fields (stored, returned in conflict reports, but never
consulted by the overlap test). -/
structure BookingRec where
  id : ℕ
  car : ℕ
  status : BookingStatus
  startDate : ℤ
  endDate : ℤ
  startTime : ℚ
  endTime : ℚ
deriving Repr, DecidableEq

/-- The projection of a conflicting booking reported by
`checkCarAvailability` (`{id, startDate, endDate, startTime, endTime}`). -/
structure ConflictInfo where
  id : ℕ
  startDate : ℤ
  endDate : ℤ
  startTime : ℚ
  endTime : ℚ
deriving Repr, DecidableEq

/-- The result object of `checkCarAvailability`. -/
structure AvailabilityResult where
  isAvailable : Bool
  reason : Option String
  conflictingBookings : Option (List ConflictInfo)
  car : Option Car
deriving Repr, DecidableEq

/-- The interval-overlap test used identically for blackout periods,
maintenance periods and existing bookings:
`start <= otherEnd && end >= otherStart` (inclusive on both endpoints). -/
def intervalsOverlap (s e otherStart otherEnd : ℤ) : Bool :=
  decide (s ≤ otherEnd) && decide (e ≥ otherStart)

/-- The `car.availability.unavailableDates.some(...)` blackout test. -/
def hasUnavailableDatesConflict (car : Car) (s e : ℤ) : Bool :=
  car.availability.unavailableDates.any fun period =>
    intervalsOverlap s e period.startDate period.endDate

/-- The `car.availability.maintenanceSchedule.some(...)` maintenance test. -/
def hasMaintenanceConflict (car : Car) (s e : ℤ) : Bool :=
  car.availability.maintenanceSchedule.any fun maintenance =>
    intervalsOverlap s e maintenance.startDate maintenance.endDate

/-- The Mongo query for conflicting bookings: same car, status in
`['pending', 'confirmed', 'active']`, `startDate <= end` and
`endDate >= start`, optionally excluding one booking id. -/
def conflictingBookingsFor (allBookings : List BookingRec) (carId : ℕ)
    (s e : ℤ) (excludeBookingId : Option ℕ) : List BookingRec :=
  allBookings.filter fun b =>
    b.car == carId &&
    (b.status == .pending || b.status == .confirmed || b.status == .active) &&
    intervalsOverlap s e b.startDate b.endDate &&
    (match excludeBookingId with
     | some ex => b.id != ex
     | none => true)

/-- `checkCarAvailability(carId, startDate, endDate, excludeBookingId)` from
`src/backend/utils/validateBooking.js` (lines 43-145).  The database is the
explicit pair of lists `cars`/`allBookings`.  Note the signature: the check
receives only the calendar dates of the requested interval, never the
times of day. -/
def checkCarAvailability (cars : List Car) (allBookings : List BookingRec)
    (carId : ℕ) (startDate endDate : ℤ) (excludeBookingId : Option ℕ) :
    AvailabilityResult :=
  match cars.find? (fun c => c.id == carId) with
  | none =>
      { isAvailable := false, reason := some "Car not found"
        conflictingBookings := none, car := none }
  | some car =>
      if car.status ≠ "active" then
        { isAvailable := false, reason := some ("Car is currently " ++ car.status)
          conflictingBookings := none, car := none }
      else if !car.availability.isAvailable then
        { isAvailable := false, reason := some "Car is not available for booking"
          conflictingBookings := none, car := none }
      else if hasUnavailableDatesConflict car startDate endDate then
        { isAvailable := false, reason := some "Car is not available for the selected dates"
          conflictingBookings := none, car := none }
      else if hasMaintenanceConflict car startDate endDate then
        { isAvailable := false, reason := some "Car is scheduled for maintenance during the selected dates"
          conflictingBookings := none, car := none }
      else
        let conflicting := conflictingBookingsFor allBookings carId startDate endDate excludeBookingId
        if conflicting.length > 0 then
          { isAvailable := false, reason := some "Car is already booked for the selected dates"
            conflictingBookings := some (conflicting.map fun b =>
              { id := b.id, startDate := b.startDate, endDate := b.endDate
                startTime := b.startTime, endTime := b.endTime })
            car := none }
        else
          { isAvailable := true, reason := none
            conflictingBookings := none, car := some car }

/-- The result object of the smaller validators (`{isValid, errors}`). -/
structure ValidationResult where
  isValid : Bool
  errors : List String
deriving Repr, DecidableEq

/-- `validateDriverLicense(licenseNumber, licenseExpiry)` from
`src/backend/utils/validateBooking.js` (lines 205-235).  `none` models a JS
`undefined` field; the JS `thirtyDaysFromNow` obtained by calendar-day
addition is modeled as `now + 30` days (exact up to daylight-saving shifts,
which are outside this embedding). -/
def validateDriverLicense (licenseNumber : Option String)
    (licenseExpiry : Option ℚ) (now : ℚ) : ValidationResult :=
  let errors : List String :=
    (if (match licenseNumber with
         | none => true
         | some s => s.trim.length == 0) then
      ["Driver license number is required"] else []) ++
    (match licenseExpiry with
     | none => ["Driver license expiry date is required"]
     | some expiryDate =>
        (if expiryDate ≤ now then ["Driver license has expired"] else []) ++
        (let thirtyDaysFromNow := now + 30 * msPerDay
         if expiryDate ≤ thirtyDaysFromNow then
           ["Driver license expires too soon for this booking"] else []))
  { isValid := errors.length == 0, errors := errors }

/-- A pickup/dropoff location; only the three fields the validator inspects
(`state`, `zipCode`, `coordinates` are optional and never validated).  A JS
missing/`undefined` field and the empty string are both modeled as `""`
(both are falsy and both fail the trimmed-length check identically). -/
structure Location where
  address : String
  city : String
  country : String
deriving Repr, DecidableEq

/-- `validateLocation(location, type)` from
`src/backend/utils/validateBooking.js` (lines 237-256). -/
def validateLocation (location : Location) (type_ : String) : ValidationResult :=
  let errors : List String :=
    (if location.address.trim.length == 0 then [type_ ++ " address is required"] else []) ++
    (if location.city.trim.length == 0 then [type_ ++ " city is required"] else []) ++
    (if location.country.trim.length == 0 then [type_ ++ " country is required"] else [])
  { isValid := errors.length == 0, errors := errors }

/-- `carSchema.methods.updateRating(newRating)` from
`src/backend/models/Car.js` (lines 227-232): running-average update
`average := (average * count + newRating) / (count + 1)` with the count
incremented; the JS `this.save()` persistence is modeled by returning the
updated car. -/
def Car.updateRating (car : Car) (newRating : ℚ) : Car :=
  let currentTotal : ℚ := car.rating.average * car.rating.count
  let newCount : ℕ := car.rating.count + 1
  { car with rating := { average := (currentTotal + newRating) / (newCount : ℚ)
                         count := newCount } }

/-- The slice of a stored booking document used by the lifecycle
controllers: ownership, status, interval, total price, insurance tier and
the rating record (both ratings `none` until the booking is rated). -/
structure BookingDoc where
  id : ℕ
  user : ℕ
  car : ℕ
  status : BookingStatus
  startDate : ℤ
  endDate : ℤ
  startTime : ℚ
  endTime : ℚ
  totalPrice : ℚ
  insuranceType : String
  carRating : Option ℤ
  serviceRating : Option ℤ
deriving Repr, DecidableEq

/-- The combined start instant
`new Date(booking.startDate.toDateString() + " " + booking.startTime)`. -/
def BookingDoc.startDateTime (b : BookingDoc) : ℚ :=
  dateTimeMs b.startDate b.startTime

/-- `(startDateTime - now) / (1000 * 60 * 60)`: hours remaining until the
booking's start instant. -/
def BookingDoc.hoursUntilStart (b : BookingDoc) (now : ℚ) : ℚ :=
  (b.startDateTime - now) / msPerHour

/-- `bookingSchema.methods.canBeCancelled` (booking model, lines 330-336):
`this.status === 'pending' || this.status === 'confirmed' && hoursUntilStart > 24`,
with JS `&&` binding tighter than `||`. -/
def BookingDoc.canBeCancelled (b : BookingDoc) (now : ℚ) : Bool :=
  b.status == .pending ||
    (b.status == .confirmed && decide (b.hoursUntilStart now > 24))

/-- `bookingSchema.methods.calculateRefund` (booking model, lines 339-354):
0 if not cancellable; full total price at 48 or more hours before start;
half at 24 or more (but fewer than 48); otherwise 0. -/
def BookingDoc.calculateRefund (b : BookingDoc) (now : ℚ) : ℚ :=
  if !b.canBeCancelled now then 0
  else if b.hoursUntilStart now ≥ 48 then b.totalPrice
  else if b.hoursUntilStart now ≥ 24 then b.totalPrice * (5/10)
  else 0

/-- The cancellation record written by `cancelBooking`
(`{reason, cancelledAt, cancelledBy, refundAmount}`; the timestamp is the
implicit `now`). -/
structure CancellationRecord where
  reason : String
  cancelledBy : ℕ
  refundAmount : ℚ
deriving Repr, DecidableEq

/-- The outcome of the `cancelBooking` controller
(`src/backend/controllers/bookingController.js`, lines 336-392). -/
inductive CancelOutcome where
  | notFound
  | notAuthorized
  | cannotCancel
  | cancelled (refundAmount : ℚ) (booking : BookingDoc) (record : CancellationRecord)
deriving Repr, DecidableEq

/-- `cancelBooking` controller: 404 when the booking does not exist; 403
unless the caller owns the booking or is an admin; 400 when
`canBeCancelled()` is false; otherwise computes the refund, sets status
`cancelled` and records reason/actor/refund on the booking. -/
def cancelBooking (booking : Option BookingDoc) (userId : ℕ) (role : String)
    (reason : Option String) (now : ℚ) : CancelOutcome :=
  match booking with
  | none => .notFound
  | some b =>
      if b.user ≠ userId ∧ role ≠ "admin" then .notAuthorized
      else if !b.canBeCancelled now then .cannotCancel
      else
        let refundAmount := b.calculateRefund now
        .cancelled refundAmount { b with status := .cancelled }
          { reason := reason.getD "Cancelled by user"
            cancelledBy := userId
            refundAmount := refundAmount }

/-- The outcome of the `rateBooking` controller (lines 509-578). -/
inductive RateOutcome where
  | missingRatings
  | notFound
  | notAuthorized
  | notCompleted
  | alreadyRated
  | rated (booking : BookingDoc) (car : Car)
deriving Repr, DecidableEq

/-- JS numeric truthiness for a possibly-missing number: `undefined` and
`0` are falsy, every other number truthy. -/
def jsTruthyNum (x : Option ℤ) : Bool :=
  match x with
  | none => false
  | some n => n != 0

/-- `rateBooking` controller: requires both ratings (JS `!carRating ||
!serviceRating`), 404 on missing booking, 403 unless the renting user (no
admin bypass here), 400 unless status is `completed`, `AlreadyRated` if a
car rating already exists, else records the rating on the booking and
updates the car's running average via `updateRating`. -/
def rateBooking (booking : Option (BookingDoc × Car)) (userId : ℕ)
    (carRating serviceRating : Option ℤ) : RateOutcome :=
  if !jsTruthyNum carRating || !jsTruthyNum serviceRating then .missingRatings
  else
    match booking with
    | none => .notFound
    | some (b, car) =>
        if b.user ≠ userId then .notAuthorized
        else if b.status ≠ .completed then .notCompleted
        else if jsTruthyNum b.carRating then .alreadyRated
        else
          .rated { b with carRating := carRating, serviceRating := serviceRating }
            (car.updateRating ((carRating.getD 0 : ℤ) : ℚ))

/-- The pricing subobject stored on a created/updated booking
(`{basePrice, taxes, fees, totalPrice, currency}` — the insurance cost is
stored separately under `insurance.cost`). -/
structure StoredPricing where
  basePrice : ℚ
  taxes : ℚ
  fees : ℚ
  totalPrice : ℚ
  currency : String
deriving Repr, DecidableEq

/-- The request body of `createBooking`; `none` models a missing (falsy)
required field.  `insuranceType` carries the JS default `'basic'` applied at
destructuring. -/
structure CreateBookingRequest where
  carId : Option ℕ
  startDate : Option ℤ
  endDate : Option ℤ
  startTime : Option ℚ
  endTime : Option ℚ
  pickupLocation : Location
  dropoffLocation : Location
  paymentMethod : Option String
  licenseNumber : Option String
  licenseExpiry : Option ℚ
  insuranceType : String
deriving Repr, DecidableEq

/-- The booking document produced by a successful `createBooking` (status
`pending` by schema default). -/
structure NewBooking where
  user : ℕ
  car : ℕ
  startDate : ℤ
  endDate : ℤ
  startTime : ℚ
  endTime : ℚ
  pricing : StoredPricing
  duration : Duration
  insuranceType : String
  insuranceCost : ℚ
  status : BookingStatus
deriving Repr, DecidableEq

/-- The outcome of the `createBooking` controller (lines 92-230).  Each
failure constructor corresponds to one early-returning 400 response and
carries exactly the `errors` array (or availability reason) of that
response. -/
inductive CreateOutcome where
  | missingFields
  | invalidDates (errors : List String)
  | invalidLicense (errors : List String)
  | invalidPickup (errors : List String)
  | invalidDropoff (errors : List String)
  | unavailable (reason : Option String) (conflicting : Option (List ConflictInfo))
  | created (booking : NewBooking)
deriving Repr, DecidableEq

/-- `createBooking` controller: required-field presence, then the
sub-validators in order (dates, driver license, pickup location, dropoff
location) — each early-returning with only its own errors — then the
availability check (dates only), then pricing, then the `pending` booking
document. -/
def createBooking (cars : List Car) (allBookings : List BookingRec)
    (req : CreateBookingRequest) (userId : ℕ) (now : ℚ) : CreateOutcome :=
  match req.carId, req.startDate, req.endDate, req.startTime, req.endTime, req.paymentMethod with
  | some carId, some startDate, some endDate, some startTime, some endTime, some _ =>
      let dateValidation := validateBookingDates startDate endDate startTime endTime now
      if !dateValidation.isValid then .invalidDates dateValidation.errors
      else
        let licenseValidation := validateDriverLicense req.licenseNumber req.licenseExpiry now
        if !licenseValidation.isValid then .invalidLicense licenseValidation.errors
        else
          let pickupValidation := validateLocation req.pickupLocation "Pickup"
          if !pickupValidation.isValid then .invalidPickup pickupValidation.errors
          else
            let dropoffValidation := validateLocation req.dropoffLocation "Dropoff"
            if !dropoffValidation.isValid then .invalidDropoff dropoffValidation.errors
            else
              let availabilityCheck := checkCarAvailability cars allBookings carId startDate endDate none
              if !availabilityCheck.isAvailable then
                .unavailable availabilityCheck.reason availabilityCheck.conflictingBookings
              else
                match availabilityCheck.car with
                | none => .unavailable none none
                | some car =>
                    let pricing := calculateBookingPrice car dateValidation.duration req.insuranceType
                    .created
                      { user := userId, car := carId
                        startDate := startDate, endDate := endDate
                        startTime := startTime, endTime := endTime
                        pricing := { basePrice := pricing.basePrice, taxes := pricing.taxes
                                     fees := pricing.fees, totalPrice := pricing.totalPrice
                                     currency := pricing.currency }
                        duration := dateValidation.duration
                        insuranceType := req.insuranceType
                        insuranceCost := pricing.insuranceCost
                        status := .pending }
  | _, _, _, _, _, _ => .missingFields

/-- The request body of `updateBooking`, restricted to the interval fields
the controller inspects (`none` = field absent from the request). -/
structure UpdateBookingRequest where
  startDate : Option ℤ
  endDate : Option ℤ
  startTime : Option ℚ
  endTime : Option ℚ
deriving Repr, DecidableEq

/-- The outcome of the `updateBooking` controller (lines 235-331). -/
inductive UpdateOutcome where
  | notFound
  | notAuthorized
  | invalidState
  | invalidDates (errors : List String)
  | unavailable (reason : Option String)
  | serverError
  | updated (startDate endDate : ℤ) (startTime endTime : ℚ)
      (pricing : StoredPricing) (duration : Duration) (insuranceCost : ℚ)
  | updatedNoDateChange
deriving Repr, DecidableEq

/-- `updateBooking` controller: 404 when the booking does not exist; 403
unless owner or admin; `invalidState` when the status is in
`['active', 'completed', 'cancelled']` — checked before any field changes;
then, only if some interval field is present in the request, re-validates
the merged interval, re-checks availability excluding the booking's own id,
and recomputes pricing with the booking's existing insurance tier.
(`serverError` models the JS crash path where the car fetched for repricing
is unexpectedly absent.) -/
def updateBooking (cars : List Car) (allBookings : List BookingRec)
    (booking : Option BookingDoc) (userId : ℕ) (role : String)
    (req : UpdateBookingRequest) (now : ℚ) : UpdateOutcome :=
  match booking with
  | none => .notFound
  | some b =>
      if b.user ≠ userId ∧ role ≠ "admin" then .notAuthorized
      else if b.status = .active ∨ b.status = .completed ∨ b.status = .cancelled then
        .invalidState
      else if req.startDate.isSome || req.endDate.isSome ||
              req.startTime.isSome || req.endTime.isSome then
        let newStartDate := req.startDate.getD b.startDate
        let newEndDate := req.endDate.getD b.endDate
        let newStartTime := req.startTime.getD b.startTime
        let newEndTime := req.endTime.getD b.endTime
        let dateValidation := validateBookingDates newStartDate newEndDate newStartTime newEndTime now
        if !dateValidation.isValid then .invalidDates dateValidation.errors
        else
          let availabilityCheck := checkCarAvailability cars allBookings b.car
            newStartDate newEndDate (some b.id)
          if !availabilityCheck.isAvailable then .unavailable availabilityCheck.reason
          else
            match cars.find? (fun c => c.id == b.car) with
            | none => .serverError
            | some car =>
                let pricing := calculateBookingPrice car dateValidation.duration b.insuranceType
                .updated newStartDate newEndDate newStartTime newEndTime
                  { basePrice := pricing.basePrice, taxes := pricing.taxes
                    fees := pricing.fees, totalPrice := pricing.totalPrice
                    currency := pricing.currency }
                  dateValidation.duration pricing.insuranceCost
      else .updatedNoDateChange

/-! ## Theorems -/

/-- C2: cancellation is permitted iff the status is `pending`, or the
status is `confirmed` with strictly more than 24 hours until the start
instant; a `confirmed` booking with 24 hours or less remaining is rejected
outright by the cancel controller, while a `pending` booking is cancelled
whatever the hours remaining. -/
theorem cancellation_permitted_iff (b : BookingDoc) (now : ℚ)
    (reason : Option String) :
    (b.canBeCancelled now = true ↔
      b.status = .pending ∨ (b.status = .confirmed ∧ b.hoursUntilStart now > 24)) ∧
    (b.status = .confirmed → b.hoursUntilStart now ≤ 24 →
      cancelBooking (some b) b.user "user" reason now = .cannotCancel) ∧
    (b.status = .pending →
      cancelBooking (some b) b.user "user" reason now =
        .cancelled (b.calculateRefund now) { b with status := .cancelled }
          { reason := reason.getD "Cancelled by user", cancelledBy := b.user
            refundAmount := b.calculateRefund now }) := by
  refine ⟨?_, ?_, ?_⟩
  · simp [BookingDoc.canBeCancelled]
  · intro h1 h2
    have hc : b.canBeCancelled now = false := by
      simp [BookingDoc.canBeCancelled, h1, not_lt.mpr h2]
    simp [cancelBooking, hc]
  · intro h1
    have hc : b.canBeCancelled now = true := by
      simp [BookingDoc.canBeCancelled, h1]
    simp [cancelBooking, hc]

/-- C2 witness: a concrete `confirmed` booking 10 hours from its start is
rejected, and a concrete `pending` booking 10 hours from its start is
cancelled. -/
theorem cancellation_permitted_iff_witness :
    cancelBooking (some
      { id := 1, user := 42, car := 1, status := .confirmed,
        startDate := 1, endDate := 2, startTime := 10 * msPerHour,
        endTime := 10 * msPerHour, totalPrice := 100, insuranceType := "basic",
        carRating := none, serviceRating := none }) 42 "user" none
      (dateTimeMs 1 0) = .cannotCancel := by
  exact (cancellation_permitted_iff _ _ none).2.1 rfl (by decide)

/-- C3: for a cancellable booking the refund is the full total price at 48
or more hours before the start instant, half the total at 24 up to 48
hours, and zero under 24 hours; a successful cancellation records exactly
this amount in the booking's cancellation record. -/
theorem refund_schedule (b : BookingDoc) (now : ℚ) (reason : Option String)
    (hc : b.canBeCancelled now = true) :
    (b.hoursUntilStart now ≥ 48 → b.calculateRefund now = b.totalPrice) ∧
    (24 ≤ b.hoursUntilStart now → b.hoursUntilStart now < 48 →
      b.calculateRefund now = b.totalPrice * (5/10)) ∧
    (b.hoursUntilStart now < 24 → b.calculateRefund now = 0) ∧
    cancelBooking (some b) b.user "user" reason now =
      .cancelled (b.calculateRefund now) { b with status := .cancelled }
        { reason := reason.getD "Cancelled by user", cancelledBy := b.user
          refundAmount := b.calculateRefund now } := by
  refine ⟨?_, ?_, ?_, ?_⟩
  · intro h48
    simp [BookingDoc.calculateRefund, hc, h48]
  · intro h24 h48
    simp [BookingDoc.calculateRefund, hc, not_le.mpr h48, h24]
  · intro h24
    have h48 : ¬ (48 ≤ b.hoursUntilStart now) := not_le.mpr (h24.trans (by norm_num))
    simp [BookingDoc.calculateRefund, hc, h48, not_le.mpr h24]
  · simp [cancelBooking, hc]

/-- C3 witness: a pending booking with total price $100 starting 30 hours
from now is cancellable and refunds half its total. -/
theorem refund_schedule_witness :
    ({ id := 1, user := 42, car := 1, status := .pending,
        startDate := 2, endDate := 3, startTime := 6 * msPerHour,
        endTime := 6 * msPerHour, totalPrice := 100, insuranceType := "basic",
        carRating := none, serviceRating := none : BookingDoc}).calculateRefund
      (dateTimeMs 1 0) = 100 * (5/10) :=
  (refund_schedule _ (dateTimeMs 1 0) none (by decide)).2.1 (by decide) (by decide)

/-- A car with hourly rate $10 and daily rate $50 (the C1 pricing
scenario). -/
def hourlyTenCar : Car :=
  { id := 1, owner := 7, status := "active"
    pricing := { hourly := 10, daily := 50, weekly := 0, currency := "USD" }
    availability := { isAvailable := true, unavailableDates := [], maintenanceSchedule := [] }
    rating := { average := 0, count := 0 }
    totalBookings := 0 }

/-- C1 counterexample: a booking from 10:00 to 13:00 of a future day passes
date validation with duration `{hours: 3, days: 1}` — the validator's
`days = ceil(hours/24)` is already 1 for a 3-hour interval — so the pricing
calculator takes the daily branch: on a car with hourly $10 and daily $50
the flat fee is $25, not $10, and the total is $117.40, not $44.65. -/
theorem threeHour_booking_fee_not_ten :
    (validateBookingDates 1 1 (10 * msPerHour) (13 * msPerHour) 0).isValid = true ∧
    (validateBookingDates 1 1 (10 * msPerHour) (13 * msPerHour) 0).duration =
      { hours := 3, days := 1 } ∧
    (calculateBookingPrice hourlyTenCar
      (validateBookingDates 1 1 (10 * msPerHour) (13 * msPerHour) 0).duration
      "basic").fees = 25 ∧
    ¬ (calculateBookingPrice hourlyTenCar
      (validateBookingDates 1 1 (10 * msPerHour) (13 * msPerHour) 0).duration
      "basic").fees = 10 ∧
    (calculateBookingPrice hourlyTenCar
      (validateBookingDates 1 1 (10 * msPerHour) (13 * msPerHour) 0).duration
      "basic").totalPrice = 587/5 ∧
    ¬ (calculateBookingPrice hourlyTenCar
      (validateBookingDates 1 1 (10 * msPerHour) (13 * msPerHour) 0).duration
      "basic").totalPrice = 4465/100 := by decide

/-- C1 amended: every validated duration has `days ≥ 1` (the validator
supplies `days = ceil(hours/24)`, which is at least 1 whenever the
minimum-duration check passes), so the pricing calculator charges the $25
flat fee on every validated booking and the pure-hourly $10-fee branch is
unreachable from validated input. -/
theorem validated_duration_fee_always_25 (sd ed : ℤ) (st et now : ℚ)
    (h : (validateBookingDates sd ed st et now).isValid = true) :
    1 ≤ (validateBookingDates sd ed st et now).duration.days ∧
    ∀ (car : Car) (insuranceType : String),
      (calculateBookingPrice car (validateBookingDates sd ed st et now).duration
        insuranceType).fees = 25 := by
  have hdays : 1 ≤ (validateBookingDates sd ed st et now).duration.days := by
    by_cases h3 : (dateTimeMs ed et - dateTimeMs sd st) / msPerHour < 1
    · exfalso
      unfold validateBookingDates at h
      simp only [List.length_append, beq_iff_eq, Nat.add_eq_zero] at h
      rcases h with ⟨⟨⟨-, -⟩, h3'⟩, -⟩
      rw [if_pos h3] at h3'
      simp at h3'
    · have hdd : (validateBookingDates sd ed st et now).duration.days =
        ⌈(dateTimeMs ed et - dateTimeMs sd st) / msPerHour / 24⌉ := rfl
      rw [hdd]
      have hpos : (0 : ℚ) < (dateTimeMs ed et - dateTimeMs sd st) / msPerHour / 24 := by
        have h1 : (1 : ℚ) ≤ (dateTimeMs ed et - dateTimeMs sd st) / msPerHour :=
          not_lt.mp h3
        positivity
      have := Int.ceil_pos.mpr hpos
      omega
  refine ⟨hdays, fun car insuranceType => ?_⟩
  unfold calculateBookingPrice
  simp only [ge_iff_le, hdays, if_pos]

/-- C1 amended witness: the 3-hour booking instance — validated duration
`{hours: 3, days: 1}`, fee $25. -/
theorem validated_duration_fee_always_25_witness :
    1 ≤ (validateBookingDates 1 1 (10 * msPerHour) (13 * msPerHour) 0).duration.days ∧
    (calculateBookingPrice hourlyTenCar
      (validateBookingDates 1 1 (10 * msPerHour) (13 * msPerHour) 0).duration
      "basic").fees = 25 :=
  ⟨(validated_duration_fee_always_25 1 1 (10 * msPerHour) (13 * msPerHour) 0 (by decide)).1,
   (validated_duration_fee_always_25 1 1 (10 * msPerHour) (13 * msPerHour) 0 (by decide)).2
     hourlyTenCar "basic"⟩

/-- A create-booking request whose dates are invalid (start in the past
relative to `now = dateTimeMs 2 0`) and whose driver license is missing
(two distinct sub-validators violated at once). -/
def doublyInvalidRequest : CreateBookingRequest :=
  { carId := some 1, startDate := some 1, endDate := some 1
    startTime := some (10 * msPerHour), endTime := some (13 * msPerHour)
    pickupLocation := { address := "1 Main St", city := "Springfield", country := "USA" }
    dropoffLocation := { address := "2 Oak Ave", city := "Springfield", country := "USA" }
    paymentMethod := some "cash"
    licenseNumber := none, licenseExpiry := none
    insuranceType := "basic" }

/-- C4 counterexample: on a request violating both the date validator and
the driver-license validator, `createBooking` reports only the date
validator's errors; the license violations (which the license validator
does find on the same input) are absent from the response. -/
theorem create_validation_not_aggregated :
    (validateDriverLicense doublyInvalidRequest.licenseNumber
      doublyInvalidRequest.licenseExpiry (dateTimeMs 2 0)).isValid = false ∧
    (validateDriverLicense doublyInvalidRequest.licenseNumber
      doublyInvalidRequest.licenseExpiry (dateTimeMs 2 0)).errors =
      ["Driver license number is required", "Driver license expiry date is required"] ∧
    createBooking [] [] doublyInvalidRequest 42 (dateTimeMs 2 0) =
      .invalidDates ["Start date and time must be in the future"] ∧
    "Driver license number is required" ∉
      ["Start date and time must be in the future"] := by decide

/-- C4 amended: when create-booking fails validation, the caller sees only
the errors of the first failing sub-validator, in the fixed order dates,
driver license, pickup location, dropoff location; each sub-validator
aggregates its own violations internally, but later sub-validators are not
run once one has failed. -/
theorem create_first_failing_validator (cars : List Car)
    (allBookings : List BookingRec) (req : CreateBookingRequest)
    (userId : ℕ) (now : ℚ) (carId : ℕ) (sd ed : ℤ) (st et : ℚ) (pm : String)
    (hc : req.carId = some carId) (hsd : req.startDate = some sd)
    (hed : req.endDate = some ed) (hst : req.startTime = some st)
    (het : req.endTime = some et) (hpm : req.paymentMethod = some pm) :
    ((validateBookingDates sd ed st et now).isValid = false →
      createBooking cars allBookings req userId now =
        .invalidDates (validateBookingDates sd ed st et now).errors) ∧
    ((validateBookingDates sd ed st et now).isValid = true →
      (validateDriverLicense req.licenseNumber req.licenseExpiry now).isValid = false →
      createBooking cars allBookings req userId now =
        .invalidLicense (validateDriverLicense req.licenseNumber req.licenseExpiry now).errors) ∧
    ((validateBookingDates sd ed st et now).isValid = true →
      (validateDriverLicense req.licenseNumber req.licenseExpiry now).isValid = true →
      (validateLocation req.pickupLocation "Pickup").isValid = false →
      createBooking cars allBookings req userId now =
        .invalidPickup (validateLocation req.pickupLocation "Pickup").errors) ∧
    ((validateBookingDates sd ed st et now).isValid = true →
      (validateDriverLicense req.licenseNumber req.licenseExpiry now).isValid = true →
      (validateLocation req.pickupLocation "Pickup").isValid = true →
      (validateLocation req.dropoffLocation "Dropoff").isValid = false →
      createBooking cars allBookings req userId now =
        .invalidDropoff (validateLocation req.dropoffLocation "Dropoff").errors) := by
  refine ⟨?_, ?_, ?_, ?_⟩
  · intro h1
    simp [createBooking, hc, hsd, hed, hst, het, hpm, h1]
  · intro h1 h2
    simp [createBooking, hc, hsd, hed, hst, het, hpm, h1, h2]
  · intro h1 h2 h3
    simp [createBooking, hc, hsd, hed, hst, het, hpm, h1, h2, h3]
  · intro h1 h2 h3 h4
    simp [createBooking, hc, hsd, hed, hst, het, hpm, h1, h2, h3, h4]

/-- C4 amended witness: the doubly-invalid request yields exactly the date
validator's error list. -/
theorem create_first_failing_validator_witness :
    createBooking [] [] doublyInvalidRequest 42 (dateTimeMs 2 0) =
      .invalidDates (validateBookingDates 1 1 (10 * msPerHour) (13 * msPerHour)
        (dateTimeMs 2 0)).errors :=
  (create_first_failing_validator [] [] doublyInvalidRequest 42 (dateTimeMs 2 0)
    1 1 1 (10 * msPerHour) (13 * msPerHour) "cash"
    rfl rfl rfl rfl rfl rfl).1 (by decide)

/-- C9: the Date/Time Validator accepts every future interval of exactly
one hour and rejects one of 59 minutes; it rejects every interval longer
than 30×24 hours and accepts a future one of exactly 30×24 hours; and when
several rules are violated at once all the corresponding messages
accumulate in the error list (no short-circuit). -/
theorem date_validator_boundaries (sd ed : ℤ) (st et now : ℚ) :
    (now < dateTimeMs sd st → dateTimeMs ed et - dateTimeMs sd st = msPerHour →
      (validateBookingDates sd ed st et now).isValid = true) ∧
    (dateTimeMs ed et - dateTimeMs sd st = 59 * (60 * 1000) →
      (validateBookingDates sd ed st et now).isValid = false) ∧
    (dateTimeMs ed et - dateTimeMs sd st > 30 * msPerDay →
      (validateBookingDates sd ed st et now).isValid = false) ∧
    (now < dateTimeMs sd st → dateTimeMs ed et - dateTimeMs sd st = 30 * msPerDay →
      (validateBookingDates sd ed st et now).isValid = true) ∧
    (dateTimeMs sd st ≤ now → dateTimeMs ed et ≤ dateTimeMs sd st →
      "Start date and time must be in the future" ∈ (validateBookingDates sd ed st et now).errors ∧
      "End date and time must be after start date and time" ∈ (validateBookingDates sd ed st et now).errors ∧
      "Booking must be at least 1 hour long" ∈ (validateBookingDates sd ed st et now).errors) := by
  have hms : (0:ℚ) < msPerHour := by norm_num [msPerHour]
  refine ⟨?_, ?_, ?_, ?_, ?_⟩
  · intro hf hd
    have h2 : ¬ dateTimeMs ed et ≤ dateTimeMs sd st := by
      rw [not_le, ← sub_pos, hd]
      exact hms
    simp only [validateBookingDates]
    rw [if_neg (not_le.mpr hf), if_neg h2, hd,
      if_neg (by rw [div_self (ne_of_gt hms)]; norm_num),
      if_neg (by rw [div_self (ne_of_gt hms)]; norm_num)]
    rfl
  · intro hd
    simp only [validateBookingDates]
    rw [hd]
    have h3 : (59 * (60 * 1000) : ℚ) / msPerHour < 1 := by norm_num [msPerHour]
    rw [if_pos h3]
    simp
  · intro hd
    simp only [validateBookingDates]
    have h4 : (dateTimeMs ed et - dateTimeMs sd st) / msPerHour / 24 > 30 := by
      rw [div_div, gt_iff_lt, lt_div_iff₀ (by norm_num [msPerHour] : (0:ℚ) < msPerHour * 24)]
      calc (30 : ℚ) * (msPerHour * 24) = 30 * msPerDay := by simp only [msPerDay]
        _ < _ := hd
    rw [if_pos h4]
    simp
  · intro hf hd
    have h2 : ¬ dateTimeMs ed et ≤ dateTimeMs sd st := by
      rw [not_le, ← sub_pos, hd]
      norm_num [msPerDay, msPerHour]
    simp only [validateBookingDates]
    rw [if_neg (not_le.mpr hf), if_neg h2, hd,
      if_neg (by norm_num [msPerHour, msPerDay]),
      if_neg (by norm_num [msPerHour, msPerDay])]
    rfl
  · intro h1 h2
    have h3 : (dateTimeMs ed et - dateTimeMs sd st) / msPerHour < 1 := by
      apply lt_of_le_of_lt (b := 0)
      · exact div_nonpos_iff.mpr (Or.inr ⟨by linarith, le_of_lt hms⟩)
      · norm_num
    simp only [validateBookingDates]
    rw [if_pos h1, if_pos h2, if_pos h3]
    simp

/-- C9 witness: a concrete one-hour future interval is accepted, and a
concrete interval in the past with end before start accumulates the three
corresponding error messages. -/
theorem date_validator_boundaries_witness :
    (validateBookingDates 1 1 (10 * msPerHour) (11 * msPerHour) 0).isValid = true ∧
    "Booking must be at least 1 hour long" ∈
      (validateBookingDates 1 1 (13 * msPerHour) (10 * msPerHour) (dateTimeMs 2 0)).errors :=
  ⟨(date_validator_boundaries 1 1 (10 * msPerHour) (11 * msPerHour) 0).1
      (by decide) (by decide),
   ((date_validator_boundaries 1 1 (13 * msPerHour) (10 * msPerHour)
      (dateTimeMs 2 0)).2.2.2.2 (by decide) (by decide)).2.2⟩

/-- C5: the overlap test is `start ≤ otherEnd AND end ≥ otherStart`,
inclusive on both endpoints, and it is the test applied to blackout
periods, maintenance periods and existing bookings alike: on a car whose
only obstacle is one interval `[ps, pe]` of the respective category, the
checker reports a conflict exactly when the inclusive test fires — in
particular a request that merely touches the interval's endpoint
(`e = ps`) conflicts. -/
theorem overlap_inclusive_endpoints (s e ps pe : ℤ) (carId bid ow tb : ℕ)
    (pr : CarPricing) (ra : CarRating) (bst bet : ℚ) :
    (intervalsOverlap s e ps pe = true ↔ (s ≤ pe ∧ ps ≤ e)) ∧
    (s ≤ pe → intervalsOverlap s e e pe = true) ∧
    ((checkCarAvailability
        [⟨carId, ow, "active", pr, ⟨true, [⟨ps, pe⟩], []⟩, ra, tb⟩]
        [] carId s e none).isAvailable = false ↔
      intervalsOverlap s e ps pe = true) ∧
    ((checkCarAvailability
        [⟨carId, ow, "active", pr, ⟨true, [], [⟨ps, pe⟩]⟩, ra, tb⟩]
        [] carId s e none).isAvailable = false ↔
      intervalsOverlap s e ps pe = true) ∧
    ((checkCarAvailability
        [⟨carId, ow, "active", pr, ⟨true, [], []⟩, ra, tb⟩]
        [⟨bid, carId, .pending, ps, pe, bst, bet⟩]
        carId s e none).isAvailable = false ↔
      intervalsOverlap s e ps pe = true) := by
  refine ⟨?_, ?_, ?_, ?_, ?_⟩
  · simp [intervalsOverlap, ge_iff_le]
  · intro h
    simp [intervalsOverlap, h]
  · cases h : intervalsOverlap s e ps pe <;>
      simp [checkCarAvailability, hasUnavailableDatesConflict,
        hasMaintenanceConflict, conflictingBookingsFor, h]
  · cases h : intervalsOverlap s e ps pe <;>
      simp [checkCarAvailability, hasUnavailableDatesConflict,
        hasMaintenanceConflict, conflictingBookingsFor, h]
  · cases h : intervalsOverlap s e ps pe <;>
      simp [checkCarAvailability, hasUnavailableDatesConflict,
        hasMaintenanceConflict, conflictingBookingsFor, h]

/-- C5 witness: a request for days 10-12 against an interval starting
exactly on day 12 (touching endpoint) conflicts in each of the three
categories. -/
theorem overlap_inclusive_endpoints_witness :
    intervalsOverlap 10 12 12 14 = true ∧
    (checkCarAvailability
      [⟨1, 7, "active", ⟨10, 50, 0, "USD"⟩, ⟨true, [⟨12, 14⟩], []⟩, ⟨0, 0⟩, 0⟩]
      [] 1 10 12 none).isAvailable = false :=
  ⟨(overlap_inclusive_endpoints 10 12 12 14 1 2 7 0
      ⟨10, 50, 0, "USD"⟩ ⟨0, 0⟩ 0 0).2.1 (by decide),
   (overlap_inclusive_endpoints 10 12 12 14 1 2 7 0
      ⟨10, 50, 0, "USD"⟩ ⟨0, 0⟩ 0 0).2.2.1.mpr (by decide)⟩

/-- C6: the availability checker's reported reason is that of the first
failing check in the fixed order car-exists, car-status-active, global
availability flag, blackout intervals, maintenance intervals, conflicting
bookings; only the booking-conflict outcome carries a list of conflicting
intervals (every earlier outcome carries `none`), so a car that is both in
maintenance and double-booked is reported as in maintenance. -/
theorem availability_reason_first_failing (cars : List Car)
    (allBookings : List BookingRec) (carId : ℕ) (s e : ℤ) (excl : Option ℕ) :
    (cars.find? (fun c => c.id == carId) = none →
      checkCarAvailability cars allBookings carId s e excl =
        ⟨false, some "Car not found", none, none⟩) ∧
    ∀ car, cars.find? (fun c => c.id == carId) = some car →
      ((car.status ≠ "active" →
        checkCarAvailability cars allBookings carId s e excl =
          ⟨false, some ("Car is currently " ++ car.status), none, none⟩) ∧
      (car.status = "active" → car.availability.isAvailable = false →
        checkCarAvailability cars allBookings carId s e excl =
          ⟨false, some "Car is not available for booking", none, none⟩) ∧
      (car.status = "active" → car.availability.isAvailable = true →
        hasUnavailableDatesConflict car s e = true →
        checkCarAvailability cars allBookings carId s e excl =
          ⟨false, some "Car is not available for the selected dates", none, none⟩) ∧
      (car.status = "active" → car.availability.isAvailable = true →
        hasUnavailableDatesConflict car s e = false →
        hasMaintenanceConflict car s e = true →
        checkCarAvailability cars allBookings carId s e excl =
          ⟨false, some "Car is scheduled for maintenance during the selected dates",
            none, none⟩) ∧
      (car.status = "active" → car.availability.isAvailable = true →
        hasUnavailableDatesConflict car s e = false →
        hasMaintenanceConflict car s e = false →
        conflictingBookingsFor allBookings carId s e excl ≠ [] →
        checkCarAvailability cars allBookings carId s e excl =
          ⟨false, some "Car is already booked for the selected dates",
            some ((conflictingBookingsFor allBookings carId s e excl).map fun b =>
              ⟨b.id, b.startDate, b.endDate, b.startTime, b.endTime⟩), none⟩) ∧
      (car.status = "active" → car.availability.isAvailable = true →
        hasUnavailableDatesConflict car s e = false →
        hasMaintenanceConflict car s e = false →
        conflictingBookingsFor allBookings carId s e excl = [] →
        checkCarAvailability cars allBookings carId s e excl =
          ⟨true, none, none, some car⟩)) := by
  constructor
  · intro hn
    simp [checkCarAvailability, hn]
  · intro car hf
    refine ⟨?_, ?_, ?_, ?_, ?_, ?_⟩
    · intro h1
      simp [checkCarAvailability, hf, h1]
    · intro h1 h2
      simp [checkCarAvailability, hf, h1, h2]
    · intro h1 h2 h3
      simp [checkCarAvailability, hf, h1, h2, h3]
    · intro h1 h2 h3 h4
      simp [checkCarAvailability, hf, h1, h2, h3, h4]
    · intro h1 h2 h3 h4 h5
      simp [checkCarAvailability, hf, h1, h2, h3, h4,
        List.length_pos.mpr h5]
    · intro h1 h2 h3 h4 h5
      simp [checkCarAvailability, hf, h1, h2, h3, h4, h5]

/-- C6 witness: a car that is simultaneously scheduled for maintenance over
the requested interval and double-booked for it is reported as in
maintenance, with no conflicting-booking list. -/
theorem availability_reason_first_failing_witness :
    checkCarAvailability
      [⟨1, 7, "active", ⟨10, 50, 0, "USD"⟩, ⟨true, [], [⟨10, 14⟩]⟩, ⟨0, 0⟩, 0⟩]
      [⟨5, 1, .confirmed, 11, 13, 0, 0⟩] 1 10 12 none =
      ⟨false, some "Car is scheduled for maintenance during the selected dates",
        none, none⟩ :=
  ((availability_reason_first_failing
      [⟨1, 7, "active", ⟨10, 50, 0, "USD"⟩, ⟨true, [], [⟨10, 14⟩]⟩, ⟨0, 0⟩, 0⟩]
      [⟨5, 1, .confirmed, 11, 13, 0, 0⟩] 1 10 12 none).2
    ⟨1, 7, "active", ⟨10, 50, 0, "USD"⟩, ⟨true, [], [⟨10, 14⟩]⟩, ⟨0, 0⟩, 0⟩
    (by decide)).2.2.2.1 rfl rfl (by decide) (by decide)

/-- A booking in `no-show` status owned by user 42 (the C7 scenario). -/
def noShowBooking : BookingDoc :=
  { id := 5, user := 42, car := 1, status := .noShow, startDate := 10
    endDate := 12, startTime := 10 * msPerHour, endTime := 10 * msPerHour
    totalPrice := 100, insuranceType := "basic"
    carRating := none, serviceRating := none }

/-- C7 counterexample: the status gate of update-booking only rejects
`active`, `completed` and `cancelled`; a booking in the sixth status
`no-show` — neither `pending` nor `confirmed` — passes the gate and the
update proceeds instead of failing with InvalidStateTransition. -/
theorem noShow_update_not_rejected :
    updateBooking [] [] (some noShowBooking) 42 "user"
      ⟨none, none, none, none⟩ 0 = .updatedNoDateChange ∧
    updateBooking [] [] (some noShowBooking) 42 "user"
      ⟨none, none, none, none⟩ 0 ≠ .invalidState ∧
    noShowBooking.status ≠ .pending ∧ noShowBooking.status ≠ .confirmed := by
  decide

/-- C7 amended: for an authorized caller, update-booking fails with
InvalidStateTransition exactly when the status is `active`, `completed` or
`cancelled` (the rejection happens before any field changes); `pending`,
`confirmed` — and also `no-show` — pass the status gate. -/
theorem update_gate_iff (cars : List Car) (allBookings : List BookingRec)
    (b : BookingDoc) (userId : ℕ) (role : String)
    (req : UpdateBookingRequest) (now : ℚ)
    (hauth : b.user = userId ∨ role = "admin") :
    updateBooking cars allBookings (some b) userId role req now = .invalidState ↔
      (b.status = .active ∨ b.status = .completed ∨ b.status = .cancelled) := by
  have hna : ¬ (b.user ≠ userId ∧ role ≠ "admin") := by
    rcases hauth with h | h <;> simp [h]
  by_cases hs : b.status = .active ∨ b.status = .completed ∨ b.status = .cancelled
  · simp [updateBooking, hna, hs]
  · refine iff_of_false ?_ hs
    simp only [updateBooking, if_neg hna, if_neg hs]
    split_ifs <;> try simp
    split <;> simp

/-- C7 amended witness: an `active` booking is rejected by the gate. -/
theorem update_gate_iff_witness :
    updateBooking [] [] (some { noShowBooking with status := .active }) 42
      "user" ⟨none, none, none, none⟩ 0 = .invalidState :=
  (update_gate_iff [] [] { noShowBooking with status := .active } 42 "user"
    ⟨none, none, none, none⟩ 0 (Or.inl rfl)).mpr (Or.inl rfl)

/-- C8: rating a completed, not-yet-rated booking succeeds and updates the
car's aggregate by the running-average formula
`(oldAverage * oldCount + newRating) / (oldCount + 1)` with the count
incremented; a second rate call on the same booking fails with
AlreadyRated; and rating a previously-unrated car (count 0) with 4 then 5
yields average 4.5 and count 2. -/
theorem rating_once_and_running_average (b : BookingDoc) (car : Car)
    (r1 s1 r2 s2 : ℤ) (x : ℚ)
    (hst : b.status = .completed) (hnr : b.carRating = none)
    (hr1 : r1 ≠ 0) (hs1 : s1 ≠ 0) (hr2 : r2 ≠ 0) (hs2 : s2 ≠ 0) :
    (rateBooking (some (b, car)) b.user (some r1) (some s1) =
      .rated { b with carRating := some r1, serviceRating := some s1 }
        (car.updateRating (r1 : ℚ))) ∧
    (rateBooking (some ({ b with carRating := some r1, serviceRating := some s1 },
        car.updateRating (r1 : ℚ))) b.user (some r2) (some s2) = .alreadyRated) ∧
    ((car.updateRating x).rating.average =
      (car.rating.average * car.rating.count + x) / (car.rating.count + 1)) ∧
    ((car.updateRating x).rating.count = car.rating.count + 1) ∧
    (car.rating.count = 0 →
      ((car.updateRating 4).updateRating 5).rating.average = 9/2 ∧
      ((car.updateRating 4).updateRating 5).rating.count = 2) := by
  refine ⟨?_, ?_, ?_, ?_, ?_⟩
  · simp [rateBooking, jsTruthyNum, hr1, hs1, hst, hnr]
  · simp [rateBooking, jsTruthyNum, hr1, hr2, hs2, hst]
  · simp [Car.updateRating]
  · rfl
  · intro h0
    norm_num [Car.updateRating, h0]

/-- C8 witness: a completed booking rated 4 (both ratings), then the
resulting booking rated again, with the concrete car initially unrated;
the second call fails with AlreadyRated and the twice-updated aggregate is
average 4.5, count 2. -/
theorem rating_once_and_running_average_witness :
    rateBooking (some
      ({ noShowBooking with
          status := .completed,
          carRating := some 4,
          serviceRating := some 4 },
       hourlyTenCar.updateRating 4)) 42 (some 5) (some 5) =
      .alreadyRated ∧
    ((hourlyTenCar.updateRating 4).updateRating 5).rating.average = 9/2 ∧
    ((hourlyTenCar.updateRating 4).updateRating 5).rating.count = 2 :=
  ⟨(rating_once_and_running_average { noShowBooking with status := .completed }
      hourlyTenCar 4 4 5 5 0 rfl rfl (by decide) (by decide) (by decide) (by decide)).2.1,
   (rating_once_and_running_average { noShowBooking with status := .completed }
      hourlyTenCar 4 4 5 5 0 rfl rfl (by decide) (by decide) (by decide) (by decide)).2.2.2.2
      rfl⟩

/-- C10: the availability check compares intervals at calendar-date
granularity only — changing every stored booking's times of day never
changes the availability verdict — so an existing booking whose date range
merely shares a calendar day with the request conflicts even when the
wall-clock times are disjoint. -/
theorem availability_date_granularity (cars : List Car)
    (allBookings : List BookingRec) (carId : ℕ) (s e : ℤ) (excl : Option ℕ)
    (t1 t2 : ℚ) (bid ow tb : ℕ) (bs d de : ℤ) (bt1 bt2 : ℚ)
    (pr : CarPricing) (ra : CarRating) (hbs : bs ≤ de) :
    ((checkCarAvailability cars (allBookings.map fun b =>
        { b with startTime := t1, endTime := t2 }) carId s e excl).isAvailable =
      (checkCarAvailability cars allBookings carId s e excl).isAvailable) ∧
    (checkCarAvailability [⟨carId, ow, "active", pr, ⟨true, [], []⟩, ra, tb⟩]
        [⟨bid, carId, .active, bs, d, bt1, bt2⟩] carId d de none =
      ⟨false, some "Car is already booked for the selected dates",
        some [⟨bid, bs, d, bt1, bt2⟩], none⟩) := by
  constructor
  · have hmap : conflictingBookingsFor (allBookings.map fun b =>
        { b with startTime := t1, endTime := t2 }) carId s e excl =
        (conflictingBookingsFor allBookings carId s e excl).map
          (fun b => { b with startTime := t1, endTime := t2 }) := by
      unfold conflictingBookingsFor
      rw [List.filter_map]
      rfl
    cases hfind : cars.find? (fun c => c.id == carId) with
    | none => simp [checkCarAvailability, hfind]
    | some car =>
        simp only [checkCarAvailability, hfind, hmap, List.length_map]
        split_ifs <;> rfl
  · simp [checkCarAvailability, hasUnavailableDatesConflict,
      hasMaintenanceConflict, conflictingBookingsFor, intervalsOverlap, hbs]

/-- C10 witness: an existing active booking over days 10-12 ending at
10:00 conflicts with a request for days 12-14 — the same-day endpoint
suffices regardless of the disjoint wall-clock times (the checker never
receives times). -/
theorem availability_date_granularity_witness :
    checkCarAvailability [⟨1, 7, "active", ⟨10, 50, 0, "USD"⟩, ⟨true, [], []⟩, ⟨0, 0⟩, 0⟩]
      [⟨5, 1, .active, 10, 12, 10 * msPerHour, 10 * msPerHour⟩] 1 12 14 none =
      ⟨false, some "Car is already booked for the selected dates",
        some [⟨5, 10, 12, 10 * msPerHour, 10 * msPerHour⟩], none⟩ :=
  (availability_date_granularity [] [] 1 0 0 none 0 0 5 7 0 10 12 14
    (10 * msPerHour) (10 * msPerHour) ⟨10, 50, 0, "USD"⟩ ⟨0, 0⟩ (by decide)).2

end CarRental
